import Mathlib

/-!
Verification of the session-lifecycle core of the NuttX VNC server
(graphics/vnc/server/vnc_server.c).

The C file is shallowly embedded below.  Conventions of the embedding:

* The per-session update descriptor pool updpool[0 .. N-1] is modelled by the
  descriptor indices 0 .. N-1; the flink pointer of updpool[i] is the value of
  a function (Nat to Option Nat), none standing for the NULL pointer.
* A singly linked queue header (struct sq_queue_s) holds optional head and
  tail indices.
* Sockets are modelled by open/closed flags: psock_socket / psock_accept mark
  the socket open, psock_close marks it closed.
* System and collaborator calls (psock_*, vnc_negotiate, vnc_start_updater,
  vnc_receiver, vnc_stop_updater, kmm_zalloc) are external to this file's
  code; their integer results and errno values are supplied by environment
  records, exactly one consultation per call site.
* Machine integers are modelled by Int (all values in the claims are tiny, so
  no wraparound is reachable at the call sites embedded here).
-/

namespace VncSpec

/-- Session states, in the order of the declared lifecycle
UNINITIALIZED, INITIALIZED, CONNECTED, RUNNING (the source compares states
with >=, so their numeric order matters). -/
inductive SessionState where
  | uninitialized
  | initialized
  | connected
  | running
deriving DecidableEq

/-- Numeric value of the state enumeration, used for the C comparison
state >= VNCSERVER_CONNECTED. -/
def SessionState.level : SessionState → Nat
  | .uninitialized => 0
  | .initialized => 1
  | .connected => 2
  | .running => 3

/-- A singly linked queue header (struct sq_queue_s): optional head and tail
descriptor indices. -/
structure SqQueue where
  head : Option Nat
  tail : Option Nat
deriving DecidableEq

/-- sq_init: both pointers NULL. -/
def sq_init : SqQueue := { head := none, tail := none }

/-- The session structure (struct vnc_session_s), restricted to the fields
the embedded code touches.  flink i is the flink pointer of updpool[i]. -/
structure Session where
  state : SessionState
  listenOpen : Bool
  connectOpen : Bool
  updqueue : SqQueue
  updfree : SqQueue
  flink : Nat → Option Nat
  freesem : Int
  queuesem : Int
  fb : Option Nat

/-- Pointwise update of the flink field of one descriptor. -/
def updateFlink (f : Nat → Option Nat) (j : Nat) (v : Option Nat) :
    Nat → Option Nat :=
  fun k => if k = j then v else f k

/-- One iteration of the free-list rebuild loop of vnc_reset_session:
curr = next; next = &updpool[i]; curr->flink = next.  The accumulator holds
the flink map and the index that the local variable next points at. -/
def resetLoopStep (acc : (Nat → Option Nat) × Nat) (i : Nat) :
    (Nat → Option Nat) × Nat :=
  (updateFlink acc.1 acc.2 (some i), i)

/-- The loop for (i = 1; i < CONFIG_VNCSERVER_NUPDATES-1; i++) of
vnc_reset_session, with next initialized to &updpool[0]; returns the final
flink map and the final value of next. -/
def resetLoop (n : Nat) (f : Nat → Option Nat) : (Nat → Option Nat) × Nat :=
  (List.range' 1 (n - 1 - 1)).foldl resetLoopStep (f, 0)

/-- vnc_reset_session: close both sockets when state >= VNCSERVER_CONNECTED,
empty the pending queue, point updfree.head at updpool[0] and updfree.tail at
updpool[n-1], run the relink loop, NULL-terminate at the final next, reset
both semaphores and set the INITIALIZED state.  n is
CONFIG_VNCSERVER_NUPDATES. -/
def vnc_reset_session (n : Nat) (session : Session) (fb : Nat) : Session :=
  let session :=
    if 2 ≤ session.state.level then
      { session with connectOpen := false, listenOpen := false }
    else session
  let r := resetLoop n session.flink
  { session with
    updqueue := sq_init
    updfree := { head := some 0, tail := some (n - 1) }
    flink := updateFlink r.1 r.2 none
    freesem := (n : Int)
    queuesem := 0
    fb := some fb
    state := .initialized }

/-- The list of descriptor indices reached by following flink pointers from
an optional start, with explicit fuel (enough fuel makes it the whole
NULL-terminated chain). -/
def chainFrom (flink : Nat → Option Nat) : Option Nat → Nat → List Nat
  | _, 0 => []
  | none, _ => []
  | some i, fuel + 1 => i :: chainFrom flink (flink i) fuel

/-- A session with arbitrary junk in every field, used to exercise
vnc_reset_session from an unconstrained prior queue state. -/
def junkSession : Session :=
  { state := .running
    listenOpen := true
    connectOpen := true
    updqueue := { head := some 5, tail := some 6 }
    updfree := { head := some 7, tail := some 8 }
    flink := fun _ => some 99
    freesem := 3
    queuesem := 1
    fb := none }

/-- Results and errno values of the four socket-layer calls that
vnc_connect makes, in call order (psock_socket, psock_bind, psock_listen,
psock_accept).  Each call site consults exactly one field pair. -/
structure ConnectEnv where
  socketRet : Int
  socketErrno : Int
  bindRet : Int
  bindErrno : Int
  listenRet : Int
  listenErrno : Int
  acceptRet : Int
  acceptErrno : Int
deriving DecidableEq

/-- vnc_connect: create listening socket, bind, listen, accept.  On a
psock_socket failure return -errno with nothing to close; on a bind, listen
or accept failure goto errout_with_listener closes the listening socket and
returns -errno; on success the accepted socket is stored in
session->connect, the state is set to VNCSERVER_CONNECTED and OK (0) is
returned — the listening socket is left as it is on this path. -/
def vnc_connect (env : ConnectEnv) (session : Session) : Int × Session :=
  if env.socketRet < 0 then (-env.socketErrno, session)
  else
    let session := { session with listenOpen := true }
    if env.bindRet < 0 then
      (-env.bindErrno, { session with listenOpen := false })
    else if env.listenRet < 0 then
      (-env.listenErrno, { session with listenOpen := false })
    else if env.acceptRet < 0 then
      (-env.acceptErrno, { session with listenOpen := false })
    else
      (0, { session with connectOpen := true, state := .connected })

/-- All four socket-layer calls of vnc_connect succeed. -/
def connectOk (env : ConnectEnv) : Prop :=
  0 ≤ env.socketRet ∧ 0 ≤ env.bindRet ∧ 0 ≤ env.listenRet ∧ 0 ≤ env.acceptRet

instance (env : ConnectEnv) : Decidable (connectOk env) := by
  unfold connectOk; infer_instance

/-- Observable steps of one iteration of the vnc_server for(;;) loop, in
program order: the session reset, the sem_reset of g_fbsem[display], the
vnc_connect call, the vnc_negotiate call, the vnc_start_updater call, the
sem_post of g_fbsem[display], the vnc_receiver call and the
vnc_stop_updater call. -/
inductive Event where
  | resetSession
  | clearFbSem
  | connectAttempt
  | negotiate
  | startUpdater
  | postFbSem
  | receiver
  | stopUpdater
deriving DecidableEq

/-- Results of the external collaborator calls made during one loop
iteration (vnc_negotiate, vnc_start_updater, vnc_receiver,
vnc_stop_updater), plus the socket-layer results consumed by vnc_connect.
The collaborators are external to this file (spec scope): only their return
codes feed the embedded control flow. -/
structure IterEnv where
  connectEnv : ConnectEnv
  negotiateRet : Int
  startUpdaterRet : Int
  receiverRet : Int
  stopUpdaterRet : Int
deriving DecidableEq

/-- Per-display mutable state outside the session structure: the session
itself and the capture-ready semaphore g_fbsem[display]. -/
structure World where
  session : Session
  fbsem : Int

/-- One iteration of the vnc_server for(;;) loop: vnc_reset_session;
sem_reset(&g_fbsem[display], 0); vnc_connect; if it returned >= 0 then
vnc_negotiate (continue on failure), vnc_start_updater (continue on
failure), sem_post(&g_fbsem[display]), vnc_receiver, vnc_stop_updater.
Returns the final per-display state and the trace of observable steps. -/
def vnc_loop_body (n : Nat) (env : IterEnv) (fb : Nat) (w : World) :
    World × List Event :=
  let s0 := vnc_reset_session n w.session fb
  let fbsem0 : Int := 0
  let r := vnc_connect env.connectEnv s0
  let pre : List Event := [.resetSession, .clearFbSem, .connectAttempt]
  if 0 ≤ r.1 then
    if env.negotiateRet < 0 then
      ({ session := r.2, fbsem := fbsem0 }, pre ++ [.negotiate])
    else if env.startUpdaterRet < 0 then
      ({ session := r.2, fbsem := fbsem0 }, pre ++ [.negotiate, .startUpdater])
    else
      ({ session := r.2, fbsem := fbsem0 + 1 },
        pre ++ [.negotiate, .startUpdater, .postFbSem, .receiver, .stopUpdater])
  else
    ({ session := r.2, fbsem := fbsem0 }, pre)

/-- The events of a trace strictly after the first occurrence of a and
strictly before the next occurrence of b. -/
def eventsBetween (t : List Event) (a b : Event) : List Event :=
  ((t.dropWhile (fun e => e != a)).drop 1).takeWhile (fun e => e != b)

/-- isspace characters skipped by atoi. -/
def isSpaceChar (c : Char) : Bool :=
  c = ' ' || c = '\t' || c = '\n' || c = '\r' || c = '\x0b' || c = '\x0c'

/-- The digit-accumulation loop of atoi: consume leading decimal digits,
stop at the first non-digit. -/
def atoiDigits : List Char → Int → Int
  | c :: rest, acc =>
      if c.isDigit then atoiDigits rest (acc * 10 + ((c.toNat : Int) - 48))
      else acc
  | [], acc => acc

/-- C atoi on the argument string: skip leading white space, consume an
optional sign, then decimal digits; a string with no leading digits parses
to 0.  (The display numbers in the claims are tiny, so int overflow is not
modelled.) -/
def atoi (s : String) : Int :=
  match s.toList.dropWhile isSpaceChar with
  | '-' :: rest => -(atoiDigits rest 0)
  | '+' :: rest => atoiDigits rest 0
  | cs => atoiDigits cs 0

/-- Observable steps of the startup phase of vnc_server: the kmm_zalloc of
the framebuffer, the kmm_zalloc of the session structure, and the write of
g_vnc_sessions[display]. -/
inductive SEvent where
  | allocFb
  | allocSession
  | registryWrite
deriving DecidableEq

/-- Result of the startup phase of vnc_server: EXIT_FAILURE return, -ENOMEM
return, or entry into the for(;;) loop serving the given display. -/
inductive StartupResult where
  | exitFailure
  | enomem
  | enterLoop (display : Nat)
deriving DecidableEq

/-- Inputs of the startup phase of vnc_server: argc, argv[1], the outcomes
of the two kmm_zalloc calls, and the (nonzero) address the session
allocation returns. -/
structure StartupEnv where
  argc : Int
  argv1 : String
  fbAllocOk : Bool
  sessionAllocOk : Bool
  sessionPtr : Nat
deriving DecidableEq

/-- The startup phase of vnc_server, up to entry into the for(;;) loop:
reject argc != 2 with EXIT_FAILURE; display = atoi(argv[1]); reject
display < 0 or display >= RFB_MAX_DISPLAYS with EXIT_FAILURE; allocate the
framebuffer (-ENOMEM on failure); allocate the session structure
(EXIT_FAILURE via errout_with_fb on failure); store the session in
g_vnc_sessions[display].  maxDisplays is RFB_MAX_DISPLAYS and the registry
g_vnc_sessions is a map from display index to the stored session address
(none for NULL).  Returns the result, the registry after the call, and the
trace of observable steps. -/
def vnc_server_startup (maxDisplays : Nat) (registry : Int → Option Nat)
    (env : StartupEnv) :
    StartupResult × (Int → Option Nat) × List SEvent :=
  if env.argc ≠ 2 then (.exitFailure, registry, [])
  else
    let display := atoi env.argv1
    if display < 0 ∨ (maxDisplays : Int) ≤ display then
      (.exitFailure, registry, [])
    else if env.fbAllocOk = false then (.enomem, registry, [.allocFb])
    else if env.sessionAllocOk = false then
      (.exitFailure, registry, [.allocFb, .allocSession])
    else
      (.enterLoop display.toNat,
        fun i => if i = display then some env.sessionPtr else registry i,
        [.allocFb, .allocSession, .registryWrite])

/-- The predicate of the DEBUGASSERT(session != NULL) at the top of
vnc_server, evaluated on whatever indeterminate value the uninitialized
local variable session happens to hold (0 stands for the NULL pointer).
No program input reaches this predicate: its argument is stack junk. -/
def vncServerEntryAssert (sessionJunk : Nat) : Bool :=
  sessionJunk ≠ 0

/-- vnc_find_session: return g_vnc_sessions[display] when
0 <= display < RFB_MAX_DISPLAYS, otherwise the NULL initialisation of the
local variable session.  (The DEBUGASSERT on the same range is a no-op in
non-debug builds and is subsumed by the if.)  The function only reads the
registry; its result is the only output. -/
def vnc_find_session (maxDisplays : Nat) (registry : Int → Option Nat)
    (display : Int) : Option Nat :=
  if 0 ≤ display ∧ display < (maxDisplays : Int) then registry display
  else none

/-- An environment in which all four socket-layer calls of vnc_connect
succeed. -/
def allOkConnectEnv : ConnectEnv :=
  { socketRet := 0, socketErrno := 0, bindRet := 0, bindErrno := 0,
    listenRet := 0, listenErrno := 0, acceptRet := 0, acceptErrno := 0 }

/-- An environment in which psock_bind fails with errno EADDRINUSE (98). -/
def bindFailEnv : ConnectEnv :=
  { socketRet := 0, socketErrno := 0, bindRet := -1, bindErrno := 98,
    listenRet := 0, listenErrno := 0, acceptRet := 0, acceptErrno := 0 }

/-- A loop-iteration environment in which the connection and all
collaborator calls succeed. -/
def okIterEnv : IterEnv :=
  { connectEnv := allOkConnectEnv, negotiateRet := 0, startUpdaterRet := 0,
    receiverRet := 0, stopUpdaterRet := 0 }

/-- A loop-iteration environment in which the connection succeeds and
vnc_negotiate fails. -/
def negFailIterEnv : IterEnv :=
  { connectEnv := allOkConnectEnv, negotiateRet := -1, startUpdaterRet := 0,
    receiverRet := 0, stopUpdaterRet := 0 }

/-- A per-display state with junk in every field. -/
def junkWorld : World := { session := junkSession, fbsem := 5 }

/-- A registry in which only display 2 has a session. -/
def sampleRegistry : Int → Option Nat :=
  fun i => if i = 2 then some 5 else none

/-- A startup environment whose display argument parses to -1. -/
def badDisplayEnv : StartupEnv :=
  { argc := 2, argv1 := "-1", fbAllocOk := true, sessionAllocOk := true,
    sessionPtr := 7 }

/-- The trace of one loop iteration, by cases over the embedded branch
conditions. -/
theorem vnc_loop_body_trace (n : Nat) (env : IterEnv) (fb : Nat) (w : World) :
    (vnc_loop_body n env fb w).2 =
      if 0 ≤ (vnc_connect env.connectEnv (vnc_reset_session n w.session fb)).1 then
        if env.negotiateRet < 0 then
          [.resetSession, .clearFbSem, .connectAttempt, .negotiate]
        else if env.startUpdaterRet < 0 then
          [.resetSession, .clearFbSem, .connectAttempt, .negotiate, .startUpdater]
        else
          [.resetSession, .clearFbSem, .connectAttempt, .negotiate, .startUpdater,
           .postFbSem, .receiver, .stopUpdater]
      else [.resetSession, .clearFbSem, .connectAttempt] := by
  simp only [vnc_loop_body]
  split_ifs <;> rfl

/-- The session after one loop iteration is the session vnc_connect left,
whatever branch the iteration took. -/
theorem vnc_loop_body_session (n : Nat) (env : IterEnv) (fb : Nat) (w : World) :
    (vnc_loop_body n env fb w).1.session =
      (vnc_connect env.connectEnv (vnc_reset_session n w.session fb)).2 := by
  simp only [vnc_loop_body]
  split_ifs <;> rfl

/-- The capture-ready semaphore after one loop iteration: 1 exactly on the
full-success branch, 0 otherwise. -/
theorem vnc_loop_body_fbsem (n : Nat) (env : IterEnv) (fb : Nat) (w : World) :
    (vnc_loop_body n env fb w).1.fbsem =
      if 0 ≤ (vnc_connect env.connectEnv (vnc_reset_session n w.session fb)).1 ∧
          ¬env.negotiateRet < 0 ∧ ¬env.startUpdaterRet < 0 then 1 else 0 := by
  simp only [vnc_loop_body]
  split_ifs with h1 h2 h3 <;> simp_all

/-- Every loop iteration's trace starts with the session reset. -/
theorem vnc_loop_body_reset_first (n : Nat) (env : IterEnv) (fb : Nat)
    (w : World) :
    ((vnc_loop_body n env fb w).2).indexOf Event.resetSession = 0 := by
  rw [vnc_loop_body_trace]
  split_ifs <;> decide

/-- In every loop iteration's trace the connect attempt sits at position 2. -/
theorem vnc_loop_body_connect_index (n : Nat) (env : IterEnv) (fb : Nat)
    (w : World) :
    ((vnc_loop_body n env fb w).2).indexOf Event.connectAttempt = 2 := by
  rw [vnc_loop_body_trace]
  split_ifs <;> decide

/-- When all four socket calls succeed, vnc_connect returns OK and the
session with both sockets open and the CONNECTED state. -/
theorem vnc_connect_of_ok (env : ConnectEnv) (s : Session) (h : connectOk env) :
    vnc_connect env s =
      (0, { s with listenOpen := true, connectOpen := true,
                   state := .connected }) := by
  obtain ⟨h1, h2, h3, h4⟩ := h
  simp only [vnc_connect, if_neg (not_lt.mpr h1), if_neg (not_lt.mpr h2),
    if_neg (not_lt.mpr h3), if_neg (not_lt.mpr h4)]

/-- Claim C1: the claim states that after vnc_reset_session the free list is
a well-formed chain holding all N = CONFIG_VNCSERVER_NUPDATES descriptors
with tail pointing at the last chain element.  The code's relink loop stops
at i < N-1 instead of i < N, so already at N = 2 the chain from
updfree.head holds only updpool[0] while updfree.tail points at updpool[1],
which is not on the chain, and freesem still claims 2 free slots — the code
contradicts its own tail assignment and semaphore count (the pending list
and both counters are nevertheless reset as the claim states). -/
theorem c1_reset_freelist_off_by_one :
    chainFrom (vnc_reset_session 2 junkSession 0).flink
      (vnc_reset_session 2 junkSession 0).updfree.head 4 = [0] ∧
    (vnc_reset_session 2 junkSession 0).updfree.tail = some 1 ∧
    1 ∉ chainFrom (vnc_reset_session 2 junkSession 0).flink
      (vnc_reset_session 2 junkSession 0).updfree.head 4 ∧
    (vnc_reset_session 2 junkSession 0).freesem = 2 ∧
    (vnc_reset_session 2 junkSession 0).queuesem = 0 ∧
    (vnc_reset_session 2 junkSession 0).updqueue = sq_init := by decide

/-- Claim C2, counterexample: with every socket call succeeding,
vnc_connect returns OK while the listening socket is still open — it is not
closed before vnc_connect returns. -/
theorem c2_listener_open_at_success_return :
    (vnc_connect allOkConnectEnv (vnc_reset_session 2 junkSession 0)).1 = 0 ∧
    (vnc_connect allOkConnectEnv (vnc_reset_session 2 junkSession 0)).2.listenOpen
      = true := by decide

/-- Claim C2, amended: on every successful vnc_connect the listening socket
remains open when OK is returned; it is closed only by the next
vnc_reset_session, which closes both sockets because the state is then
VNCSERVER_CONNECTED. -/
theorem c2_listener_closed_by_next_reset (env : ConnectEnv) (s : Session)
    (n fb : Nat) (h : connectOk env) :
    (vnc_connect env s).1 = 0 ∧
    (vnc_connect env s).2.listenOpen = true ∧
    (vnc_reset_session n (vnc_connect env s).2 fb).listenOpen = false ∧
    (vnc_reset_session n (vnc_connect env s).2 fb).connectOpen = false := by
  rw [vnc_connect_of_ok env s h]
  refine ⟨rfl, rfl, ?_, ?_⟩ <;>
    simp [vnc_reset_session, SessionState.level]

/-- Witness for the amended claim C2 at a concrete all-success input. -/
theorem c2_listener_closed_by_next_reset_witness :
    (vnc_connect allOkConnectEnv junkSession).1 = 0 ∧
    (vnc_connect allOkConnectEnv junkSession).2.listenOpen = true ∧
    (vnc_reset_session 2 (vnc_connect allOkConnectEnv junkSession).2 0).listenOpen
      = false ∧
    (vnc_reset_session 2 (vnc_connect allOkConnectEnv junkSession).2 0).connectOpen
      = false :=
  c2_listener_closed_by_next_reset allOkConnectEnv junkSession 2 0 (by decide)

/-- Claim C3: in every loop iteration g_fbsem[display] is cleared before the
connection attempt, and the post of g_fbsem[display] happens exactly when
vnc_connect returned >= 0 and both vnc_negotiate and vnc_start_updater
succeeded, strictly after the vnc_start_updater call; on every failing
iteration the semaphore stays 0. -/
theorem c3_fbsem_cleared_then_posted_on_success (n : Nat) (env : IterEnv)
    (fb : Nat) (w : World) :
    Event.clearFbSem ∈ (vnc_loop_body n env fb w).2 ∧
    Event.connectAttempt ∈ (vnc_loop_body n env fb w).2 ∧
    ((vnc_loop_body n env fb w).2.indexOf Event.clearFbSem <
      (vnc_loop_body n env fb w).2.indexOf Event.connectAttempt) ∧
    (Event.postFbSem ∈ (vnc_loop_body n env fb w).2 ↔
      (0 ≤ (vnc_connect env.connectEnv (vnc_reset_session n w.session fb)).1 ∧
        0 ≤ env.negotiateRet ∧ 0 ≤ env.startUpdaterRet)) ∧
    (Event.postFbSem ∈ (vnc_loop_body n env fb w).2 →
      (vnc_loop_body n env fb w).2.indexOf Event.startUpdater <
        (vnc_loop_body n env fb w).2.indexOf Event.postFbSem) ∧
    (0 ≤ (vnc_connect env.connectEnv (vnc_reset_session n w.session fb)).1 ∧
        0 ≤ env.negotiateRet ∧ 0 ≤ env.startUpdaterRet →
      (vnc_loop_body n env fb w).1.fbsem = 1) ∧
    (¬(0 ≤ (vnc_connect env.connectEnv (vnc_reset_session n w.session fb)).1 ∧
        0 ≤ env.negotiateRet ∧ 0 ≤ env.startUpdaterRet) →
      (vnc_loop_body n env fb w).1.fbsem = 0) := by
  refine ⟨?_, ?_, ?_, ?_, ?_, ?_, ?_⟩
  · rw [vnc_loop_body_trace]; split_ifs <;> decide
  · rw [vnc_loop_body_trace]; split_ifs <;> decide
  · rw [vnc_loop_body_trace]; split_ifs <;> decide
  · rw [vnc_loop_body_trace]
    split_ifs with h1 h2 h3
    · constructor
      · intro hm; exact absurd hm (by decide)
      · rintro ⟨-, hn, -⟩; omega
    · constructor
      · intro hm; exact absurd hm (by decide)
      · rintro ⟨-, -, hs⟩; omega
    · constructor
      · intro _; exact ⟨h1, by omega, by omega⟩
      · intro _; decide
    · constructor
      · intro hm; exact absurd hm (by decide)
      · rintro ⟨hc, -, -⟩; exact absurd hc h1
  · rw [vnc_loop_body_trace]
    split_ifs <;> intro hm <;>
      first | exact absurd hm (by decide) | decide
  · rw [vnc_loop_body_fbsem]; split_ifs with h <;> omega
  · rw [vnc_loop_body_fbsem]; split_ifs with h <;> omega

/-- Witness for claim C3 at a concrete all-success iteration. -/
theorem c3_fbsem_witness :
    Event.postFbSem ∈ (vnc_loop_body 2 okIterEnv 0 junkWorld).2 ∧
    (vnc_loop_body 2 okIterEnv 0 junkWorld).1.fbsem = 1 :=
  ⟨(c3_fbsem_cleared_then_posted_on_success 2 okIterEnv 0 junkWorld).2.2.2.1.mpr
      (by decide),
    (c3_fbsem_cleared_then_posted_on_success 2 okIterEnv 0 junkWorld).2.2.2.2.2.1
      (by decide)⟩

/-- Claim C4: in every iteration that reaches the running phase,
vnc_stop_updater is called after vnc_receiver returns, no session reset
occurs between the updater start and the updater stop, and the next
iteration's very first step is the session reset. -/
theorem c4_stop_updater_before_next_reset (n : Nat) (env1 env2 : IterEnv)
    (fb : Nat) (w : World)
    (hconn : 0 ≤ (vnc_connect env1.connectEnv
      (vnc_reset_session n w.session fb)).1)
    (hneg : 0 ≤ env1.negotiateRet) (hstart : 0 ≤ env1.startUpdaterRet) :
    Event.receiver ∈ (vnc_loop_body n env1 fb w).2 ∧
    Event.stopUpdater ∈ (vnc_loop_body n env1 fb w).2 ∧
    ((vnc_loop_body n env1 fb w).2.indexOf Event.receiver <
      (vnc_loop_body n env1 fb w).2.indexOf Event.stopUpdater) ∧
    Event.resetSession ∉
      eventsBetween (vnc_loop_body n env1 fb w).2 Event.startUpdater
        Event.stopUpdater ∧
    ((vnc_loop_body n env2 fb (vnc_loop_body n env1 fb w).1).2).indexOf
      Event.resetSession = 0 := by
  have htr := vnc_loop_body_trace n env1 fb w
  rw [if_pos hconn, if_neg (not_lt.mpr hneg), if_neg (not_lt.mpr hstart)] at htr
  rw [htr]
  exact ⟨by decide, by decide, by decide, by decide,
    vnc_loop_body_reset_first n env2 fb (vnc_loop_body n env1 fb w).1⟩

/-- Witness for claim C4 at a concrete running-phase iteration. -/
theorem c4_stop_updater_witness :
    Event.receiver ∈ (vnc_loop_body 2 okIterEnv 0 junkWorld).2 ∧
    Event.stopUpdater ∈ (vnc_loop_body 2 okIterEnv 0 junkWorld).2 ∧
    ((vnc_loop_body 2 okIterEnv 0 junkWorld).2.indexOf Event.receiver <
      (vnc_loop_body 2 okIterEnv 0 junkWorld).2.indexOf Event.stopUpdater) ∧
    Event.resetSession ∉
      eventsBetween (vnc_loop_body 2 okIterEnv 0 junkWorld).2 Event.startUpdater
        Event.stopUpdater ∧
    ((vnc_loop_body 2 negFailIterEnv 0
        (vnc_loop_body 2 okIterEnv 0 junkWorld).1).2).indexOf
      Event.resetSession = 0 :=
  c4_stop_updater_before_next_reset 2 okIterEnv negFailIterEnv 0 junkWorld
    (by decide) (by decide) (by decide)

/-- Claim C5: when the connection succeeded but vnc_negotiate or
vnc_start_updater failed, the session is left in the CONNECTED state, the
capture-ready signal is never posted, the next vnc_reset_session closes
both sockets and yields the INITIALIZED state, and in the following
iteration that reset precedes the connect attempt. -/
theorem c5_connected_failure_resets_before_next_accept (n : Nat)
    (env1 env2 : IterEnv) (fb : Nat) (w : World)
    (hconn : connectOk env1.connectEnv)
    (hfail : env1.negotiateRet < 0 ∨ env1.startUpdaterRet < 0) :
    (vnc_loop_body n env1 fb w).1.session.state = SessionState.connected ∧
    Event.postFbSem ∉ (vnc_loop_body n env1 fb w).2 ∧
    (vnc_reset_session n (vnc_loop_body n env1 fb w).1.session fb).listenOpen
      = false ∧
    (vnc_reset_session n (vnc_loop_body n env1 fb w).1.session fb).connectOpen
      = false ∧
    (vnc_reset_session n (vnc_loop_body n env1 fb w).1.session fb).state
      = SessionState.initialized ∧
    ((vnc_loop_body n env2 fb (vnc_loop_body n env1 fb w).1).2).indexOf
        Event.resetSession <
      ((vnc_loop_body n env2 fb (vnc_loop_body n env1 fb w).1).2).indexOf
        Event.connectAttempt := by
  have hsess := vnc_loop_body_session n env1 fb w
  rw [vnc_connect_of_ok env1.connectEnv (vnc_reset_session n w.session fb) hconn]
    at hsess
  have hstate : (vnc_loop_body n env1 fb w).1.session.state
      = SessionState.connected := by rw [hsess]
  refine ⟨hstate, ?_, ?_, ?_, ?_, ?_⟩
  · rw [vnc_loop_body_trace]
    have hret : 0 ≤ (vnc_connect env1.connectEnv
        (vnc_reset_session n w.session fb)).1 := by
      rw [vnc_connect_of_ok env1.connectEnv (vnc_reset_session n w.session fb)
        hconn]
    rw [if_pos hret]
    rcases hfail with hf | hf
    · rw [if_pos hf]; decide
    · split_ifs <;> decide
  · simp [vnc_reset_session, hstate, SessionState.level]
  · simp [vnc_reset_session, hstate, SessionState.level]
  · simp [vnc_reset_session]
  · rw [vnc_loop_body_reset_first, vnc_loop_body_connect_index]; omega

/-- Witness for claim C5 at a concrete failed-negotiation iteration. -/
theorem c5_connected_failure_witness :
    (vnc_loop_body 2 negFailIterEnv 0 junkWorld).1.session.state
      = SessionState.connected ∧
    Event.postFbSem ∉ (vnc_loop_body 2 negFailIterEnv 0 junkWorld).2 ∧
    (vnc_reset_session 2 (vnc_loop_body 2 negFailIterEnv 0 junkWorld).1.session
      0).listenOpen = false ∧
    (vnc_reset_session 2 (vnc_loop_body 2 negFailIterEnv 0 junkWorld).1.session
      0).connectOpen = false ∧
    (vnc_reset_session 2 (vnc_loop_body 2 negFailIterEnv 0 junkWorld).1.session
      0).state = SessionState.initialized ∧
    ((vnc_loop_body 2 okIterEnv 0
        (vnc_loop_body 2 negFailIterEnv 0 junkWorld).1).2).indexOf
        Event.resetSession <
      ((vnc_loop_body 2 okIterEnv 0
        (vnc_loop_body 2 negFailIterEnv 0 junkWorld).1).2).indexOf
        Event.connectAttempt :=
  c5_connected_failure_resets_before_next_accept 2 negFailIterEnv okIterEnv 0
    junkWorld (by decide) (Or.inl (by decide))

/-- Claim C6: with the listening socket created, every bind, listen or
accept failure with a positive errno closes the listening socket, returns
the negated errno (a negative value) and leaves the state unchanged, while
the all-success path returns OK and sets the CONNECTED state. -/
theorem c6_connect_failure_paths (env : ConnectEnv) (s : Session)
    (hsock : 0 ≤ env.socketRet) :
    (env.bindRet < 0 → 0 < env.bindErrno →
      (vnc_connect env s).1 = -env.bindErrno ∧ (vnc_connect env s).1 < 0 ∧
      (vnc_connect env s).2.listenOpen = false ∧
      (vnc_connect env s).2.state = s.state) ∧
    (0 ≤ env.bindRet → env.listenRet < 0 → 0 < env.listenErrno →
      (vnc_connect env s).1 = -env.listenErrno ∧ (vnc_connect env s).1 < 0 ∧
      (vnc_connect env s).2.listenOpen = false ∧
      (vnc_connect env s).2.state = s.state) ∧
    (0 ≤ env.bindRet → 0 ≤ env.listenRet → env.acceptRet < 0 →
      0 < env.acceptErrno →
      (vnc_connect env s).1 = -env.acceptErrno ∧ (vnc_connect env s).1 < 0 ∧
      (vnc_connect env s).2.listenOpen = false ∧
      (vnc_connect env s).2.state = s.state) ∧
    (0 ≤ env.bindRet → 0 ≤ env.listenRet → 0 ≤ env.acceptRet →
      (vnc_connect env s).1 = 0 ∧
      (vnc_connect env s).2.state = SessionState.connected) := by
  refine ⟨?_, ?_, ?_, ?_⟩
  · intro hb he
    simp only [vnc_connect, if_neg (not_lt.mpr hsock), if_pos hb]
    refine ⟨?_, ?_, ?_, ?_⟩ <;> first | trivial | omega
  · intro hb hl he
    simp only [vnc_connect, if_neg (not_lt.mpr hsock), if_neg (not_lt.mpr hb),
      if_pos hl]
    refine ⟨?_, ?_, ?_, ?_⟩ <;> first | trivial | omega
  · intro hb hl ha he
    simp only [vnc_connect, if_neg (not_lt.mpr hsock), if_neg (not_lt.mpr hb),
      if_neg (not_lt.mpr hl), if_pos ha]
    refine ⟨?_, ?_, ?_, ?_⟩ <;> first | trivial | omega
  · intro hb hl ha
    rw [vnc_connect_of_ok env s ⟨hsock, hb, hl, ha⟩]
    exact ⟨rfl, rfl⟩

/-- Witness for claim C6 at a concrete bind failure. -/
theorem c6_connect_failure_witness :
    (vnc_connect bindFailEnv junkSession).1 = -98 ∧
    (vnc_connect bindFailEnv junkSession).1 < 0 ∧
    (vnc_connect bindFailEnv junkSession).2.listenOpen = false ∧
    (vnc_connect bindFailEnv junkSession).2.state = junkSession.state :=
  (c6_connect_failure_paths bindFailEnv junkSession (by decide)).1
    (by decide) (by decide)

/-- Claim C7: a display argument parsing below 0 or at or above
RFB_MAX_DISPLAYS makes vnc_server return EXIT_FAILURE with no allocation
performed and the registry untouched, and the registry write happens only
after both allocations succeeded, as the last startup step. -/
theorem c7_invalid_display_rejected_before_alloc (maxDisplays : Nat)
    (registry : Int → Option Nat) (env : StartupEnv) :
    (atoi env.argv1 < 0 ∨ (maxDisplays : Int) ≤ atoi env.argv1 →
      (vnc_server_startup maxDisplays registry env).1
        = StartupResult.exitFailure ∧
      (vnc_server_startup maxDisplays registry env).2.2 = [] ∧
      ∀ i : Int, (vnc_server_startup maxDisplays registry env).2.1 i
        = registry i) ∧
    (SEvent.registryWrite ∈ (vnc_server_startup maxDisplays registry env).2.2 →
      env.fbAllocOk = true ∧ env.sessionAllocOk = true ∧
      (vnc_server_startup maxDisplays registry env).2.2 =
        [SEvent.allocFb, SEvent.allocSession, SEvent.registryWrite]) := by
  constructor
  · intro hbad
    by_cases hargc : env.argc ≠ 2
    · rw [vnc_server_startup, if_pos hargc]
      exact ⟨rfl, rfl, fun _ => rfl⟩
    · rw [vnc_server_startup, if_neg hargc, if_pos hbad]
      exact ⟨rfl, rfl, fun _ => rfl⟩
  · intro hw
    by_cases h1 : env.argc ≠ 2
    · rw [vnc_server_startup, if_pos h1] at hw
      simp at hw
    · by_cases h2 : atoi env.argv1 < 0 ∨ (maxDisplays : Int) ≤ atoi env.argv1
      · rw [vnc_server_startup, if_neg h1, if_pos h2] at hw
        simp at hw
      · by_cases h3 : env.fbAllocOk = false
        · rw [vnc_server_startup, if_neg h1, if_neg h2, if_pos h3] at hw
          simp at hw
        · by_cases h4 : env.sessionAllocOk = false
          · rw [vnc_server_startup, if_neg h1, if_neg h2, if_neg h3,
              if_pos h4] at hw
            simp at hw
          · rw [vnc_server_startup, if_neg h1, if_neg h2, if_neg h3, if_neg h4]
            exact ⟨by simpa using h3, by simpa using h4, rfl⟩

/-- Witness for claim C7 at the concrete display argument -1. -/
theorem c7_invalid_display_witness :
    (vnc_server_startup 4 sampleRegistry badDisplayEnv).1
      = StartupResult.exitFailure ∧
    (vnc_server_startup 4 sampleRegistry badDisplayEnv).2.2 = [] ∧
    (vnc_server_startup 4 sampleRegistry badDisplayEnv).2.1 0
      = sampleRegistry 0 :=
  ⟨((c7_invalid_display_rejected_before_alloc 4 sampleRegistry badDisplayEnv).1
      (Or.inl (by decide))).1,
    ((c7_invalid_display_rejected_before_alloc 4 sampleRegistry badDisplayEnv).1
      (Or.inl (by decide))).2.1,
    ((c7_invalid_display_rejected_before_alloc 4 sampleRegistry badDisplayEnv).1
      (Or.inl (by decide))).2.2 0⟩

/-- Claim C8: vnc_find_session returns NULL for a negative display, for a
display at or above RFB_MAX_DISPLAYS, and for an in-range display with no
registered session; for an in-range display it returns exactly the
registry entry.  The embedded function consumes the registry and the index
and produces only the lookup result, so it modifies no state. -/
theorem c8_find_session_lookup (maxDisplays : Nat)
    (registry : Int → Option Nat) (display : Int) :
    (display < 0 → vnc_find_session maxDisplays registry display = none) ∧
    ((maxDisplays : Int) ≤ display →
      vnc_find_session maxDisplays registry display = none) ∧
    (registry display = none →
      vnc_find_session maxDisplays registry display = none) ∧
    (0 ≤ display → display < (maxDisplays : Int) →
      vnc_find_session maxDisplays registry display = registry display) := by
  refine ⟨?_, ?_, ?_, ?_⟩ <;> intro h
  · rw [vnc_find_session, if_neg]; omega
  · rw [vnc_find_session, if_neg]; omega
  · rw [vnc_find_session]; split_ifs <;> simp [h]
  · intro h2
    rw [vnc_find_session, if_pos ⟨h, h2⟩]

/-- Witness for claim C8 at a concrete in-range registered display. -/
theorem c8_find_session_witness :
    vnc_find_session 4 sampleRegistry 2 = sampleRegistry 2 :=
  (c8_find_session_lookup 4 sampleRegistry 2).2.2.2 (by decide) (by decide)

/-- Claim C9: the DEBUGASSERT(session != NULL) at the entry of vnc_server
evaluates a predicate of the indeterminate junk held by the still
uninitialized local variable session — its embedding takes only that junk
value, no program input — and both truth values are realized, so the
assertion establishes nothing about program state. -/
theorem c9_entry_assert_reads_stack_junk :
    vncServerEntryAssert 0 = false ∧ vncServerEntryAssert 1 = true := by decide

/-- Claim C10: every argument string whose atoi value is 0 — numeric or not
— passes the startup validation and is served as display 0, with the
session registered at index 0. -/
theorem c10_atoi_zero_serves_display_zero (maxDisplays : Nat)
    (registry : Int → Option Nat) (env : StartupEnv) (hmax : 1 ≤ maxDisplays)
    (hargc : env.argc = 2) (hzero : atoi env.argv1 = 0)
    (hfb : env.fbAllocOk = true) (hsess : env.sessionAllocOk = true) :
    (vnc_server_startup maxDisplays registry env).1
      = StartupResult.enterLoop 0 ∧
    (vnc_server_startup maxDisplays registry env).2.1 0
      = some env.sessionPtr := by
  have hmax2 : ¬((0 : Int) < 0 ∨ (maxDisplays : Int) ≤ 0) := by
    push_neg
    exact ⟨le_refl 0, by exact_mod_cast hmax⟩
  simp only [vnc_server_startup, hargc, hzero, hfb, hsess]
  rw [if_neg (by simp), if_neg (by simpa using hmax2)]
  simp

/-- Witness for claim C10 at the concrete non-numeric argument "zebra". -/
theorem c10_atoi_zero_witness :
    (vnc_server_startup 4 sampleRegistry
      { argc := 2, argv1 := "zebra", fbAllocOk := true, sessionAllocOk := true,
        sessionPtr := 7 }).1 = StartupResult.enterLoop 0 ∧
    (vnc_server_startup 4 sampleRegistry
      { argc := 2, argv1 := "zebra", fbAllocOk := true, sessionAllocOk := true,
        sessionPtr := 7 }).2.1 0 = some 7 :=
  c10_atoi_zero_serves_display_zero 4 sampleRegistry _ (by decide) rfl
    (by decide) rfl rfl

end VncSpec
